import Mathlib

set_option maxHeartbeats 2000000
set_option linter.unusedVariables false

namespace Jina

/-- The runtime backend choice from `jina.enums.RuntimeBackendType`:
`THREAD` runs the lifecycle body in a `threading.Thread` (cooperative
execution), `PROCESS` in a `multiprocessing.Process` (isolated execution). -/
inductive RuntimeBackendType
  | THREAD
  | PROCESS
deriving DecidableEq, Fintype

/-- Kinds of Python exceptions relevant to `BasePea.run`.
`runtimeFailToStart` models `jina.excepts.RuntimeFailToStart` and
`runtimeTerminated` models `jina.excepts.RuntimeTerminated`, both subclasses
of `Exception`; `keyboardInterrupt` and `systemExit` model
`KeyboardInterrupt` and `SystemExit`, which derive from `BaseException` but
not from `Exception`; `systemError` models `SystemError` (a subclass of
`Exception`) and `otherError` any other `Exception` subclass. -/
inductive ExcKind
  | runtimeFailToStart
  | runtimeTerminated
  | keyboardInterrupt
  | systemExit
  | systemError
  | otherError
deriving DecidableEq, Fintype

/-- Whether a Python `except Exception` clause catches this exception kind:
everything except `KeyboardInterrupt` and `SystemExit`, which derive directly
from `BaseException`. -/
def isException : ExcKind → Bool
  | ExcKind.keyboardInterrupt => false
  | ExcKind.systemExit => false
  | _ => true

/-- An exception escaping `BasePea.run`: either one of the modelled kinds,
or the `UnboundLocalError` raised when the outer `except Exception` handler
of `run` formats `{runtime.setup!r}` while the local variable `runtime` was
never assigned (construction of the runtime itself raised). -/
inductive PyExc
  | exc (k : ExcKind)
  | unboundLocalError
deriving DecidableEq

/-- Observable steps of `BasePea.run`, in program order:
`setEnvs` is the `os.environ.update(...)` inside `_set_envs`;
`warnThreadEnv` is the warning branch of `_set_envs` under the THREAD
backend; `logInfo` and `logError` are the logger calls; `setupCall`,
`runForeverCall` and `teardownCall` are the calls into the runtime;
`readySet`, `shutdownSet`, `readyClear` are the flag operations; and
`unsetEnvsCall` is the `self._unset_envs()` call in the `finally` block. -/
inductive Event
  | setEnvs
  | warnThreadEnv
  | logInfo
  | logError
  | setupCall
  | readySet
  | runForeverCall
  | teardownCall
  | shutdownSet
  | readyClear
  | unsetEnvsCall
deriving DecidableEq

/-- The three statements of the `finally` block of `BasePea.run`, in source
order: `self.is_shutdown.set()`, `self.is_ready.clear()`,
`self._unset_envs()`. -/
def finallyEvents : List Event :=
  [Event.shutdownSet, Event.readyClear, Event.unsetEnvsCall]

/-- Events of the `self._set_envs()` call in `run`: `_set_envs` does nothing
unless `self.args.env` is non-empty; with a non-empty `args.env` it warns
under the THREAD backend and otherwise updates `os.environ` with the full
`self._envs` map. -/
def setEnvsEvents (backend : RuntimeBackendType) (envNonempty : Bool) : List Event :=
  if envNonempty then
    if backend = RuntimeBackendType.THREAD then [Event.warnThreadEnv]
    else [Event.setEnvs]
  else []

/-- Evaluation of the argument of `self.logger.error(...)` in the outer
`except Exception` handler of `run`.  Python evaluates the conditional
expression `(fstring + fstring) if not quiet_error else (empty)` before the
call; the first f-string formats `runtime.setup`, and `runtime` is an
unbound local exactly when `self.runtime_cls(...)` itself raised, in which
case evaluating it raises `UnboundLocalError` out of the handler.
Returns the events performed and the exception raised by the handler, if
any. -/
def setupErrorLog (quietError runtimeBound : Bool) : List Event × Option PyExc :=
  if quietError then ([Event.logError], none)
  else if runtimeBound then ([Event.logError], none)
  else ([], some PyExc.unboundLocalError)

/-- Events and escaping exception of the `try runtime.run_forever()` block in
the `else` suite of `run`: `RuntimeFailToStart`, `SystemError` and any other
`Exception` are logged as errors; `RuntimeTerminated` and
`KeyboardInterrupt` are logged as info; `SystemExit` matches none of the
handlers and propagates. -/
def runForeverBlock (runForeverRes : Option ExcKind) : List Event × Option PyExc :=
  match runForeverRes with
  | none => ([Event.runForeverCall], none)
  | some ExcKind.runtimeFailToStart => ([Event.runForeverCall, Event.logError], none)
  | some ExcKind.runtimeTerminated => ([Event.runForeverCall, Event.logInfo], none)
  | some ExcKind.keyboardInterrupt => ([Event.runForeverCall, Event.logInfo], none)
  | some ExcKind.systemExit =>
    ([Event.runForeverCall], some (PyExc.exc ExcKind.systemExit))
  | some ExcKind.systemError => ([Event.runForeverCall, Event.logError], none)
  | some ExcKind.otherError => ([Event.runForeverCall, Event.logError], none)

/-- Events and escaping exception of the `try runtime.teardown()` block:
failures that are `Exception`s are only logged; `KeyboardInterrupt` or
`SystemExit` raised by `teardown()` propagate. -/
def teardownBlock (teardownRes : Option ExcKind) : List Event × Option PyExc :=
  match teardownRes with
  | none => ([Event.teardownCall], none)
  | some k =>
    if isException k then ([Event.teardownCall, Event.logError], none)
    else ([Event.teardownCall], some (PyExc.exc k))

/-- Shallow embedding of the lifecycle body `BasePea.run`.  The oracle
arguments `construct`, `setupRes`, `runForeverRes`, `teardownRes` give the
outcome of runtime construction, `runtime.setup()`, `runtime.run_forever()`
and `runtime.teardown()` respectively (`none` = returns normally, `some k` =
raises an exception of kind `k`).  The result is the trace of observable
events of the body and the exception escaping `run`, if any.

Control flow mirrored from the source: an inner `try` wraps construction and
re-raises any `Exception` as `RuntimeFailToStart` (so `KeyboardInterrupt` or
`SystemExit` during construction pass through both handlers); the outer
`except Exception` logs (evaluating `setupErrorLog`); the `else` suite sets
`is_ready`, runs `run_forever` and then `teardown`; the `finally` block
always runs `finallyEvents` and any still-pending exception then escapes. -/
def run (backend : RuntimeBackendType) (quietError envNonempty : Bool)
    (construct setupRes runForeverRes teardownRes : Option ExcKind) :
    List Event × Option PyExc :=
  match construct with
  | some k =>
    if isException k then
      let handler := setupErrorLog quietError false
      (handler.fst ++ finallyEvents, handler.snd)
    else
      (finallyEvents, some (PyExc.exc k))
  | none =>
    let pre := setEnvsEvents backend envNonempty ++ [Event.logInfo, Event.setupCall]
    match setupRes with
    | some k =>
      if isException k then
        let handler := setupErrorLog quietError true
        (pre ++ handler.fst ++ finallyEvents, handler.snd)
      else
        (pre ++ finallyEvents, some (PyExc.exc k))
    | none =>
      let rf := runForeverBlock runForeverRes
      match rf.snd with
      | some e => (pre ++ [Event.readySet] ++ rf.fst ++ finallyEvents, some e)
      | none =>
        let td := teardownBlock teardownRes
        (pre ++ [Event.readySet] ++ rf.fst ++ td.fst ++ finallyEvents, td.snd)

/-- The pair of lifecycle flags of a Pea. -/
structure Flags where
  ready : Bool
  shutdown : Bool
deriving DecidableEq

/-- Effect of one event on the flag pair. -/
def stepFlags (f : Flags) : Event → Flags
  | Event.readySet => { f with ready := true }
  | Event.readyClear => { f with ready := false }
  | Event.shutdownSet => { f with shutdown := true }
  | _ => f

/-- The sequence of flag states observable along a trace of `run`, starting
from both flags unset. -/
def flagTrace (es : List Event) : List Flags :=
  es.scanl stepFlags { ready := false, shutdown := false }

/-- `is_shutdown` is monotone along a flag-state sequence: once true it
stays true. -/
def shutdownMono : List Flags → Bool
  | [] => true
  | [_] => true
  | a :: b :: rest => (!a.shutdown || b.shutdown) && shutdownMono (b :: rest)

/-- No `is_ready.set()` occurs after the first `is_shutdown.set()` in a
trace. -/
def noReadySetAfterShutdown : List Event → Bool
  | [] => true
  | Event.shutdownSet :: rest => !(rest.contains Event.readySet)
  | _ :: rest => noReadySetAfterShutdown rest

/-- `occursBefore a b es` holds when some occurrence of `a` appears in `es`
strictly before any occurrence of `b`, and `b` also occurs after it. -/
def occursBefore (a b : Event) : List Event → Bool
  | [] => false
  | e :: rest =>
    if e = a then rest.contains b
    else if e = b then false
    else occursBefore a b rest

/-- The result of the combined gate wait in `wait_start_success`:
`_timeout` is `None` when `args.timeout_ready <= 0`, and
`threading.Event.wait(None)` / `multiprocessing.Event.wait(None)` blocks
until the event is set and then returns `True` — so with a non-positive
configured timeout the wait can only report unblocked.  With a positive
timeout the outcome is whether either flag fired within the bound, supplied
here as the oracle `gateOracle`. -/
def gateUnblocked (timeoutReadyMs : Int) (gateOracle : Bool) : Bool :=
  if timeoutReadyMs ≤ 0 then true else gateOracle

/-- Outcome of `BasePea.wait_start_success`: return normally, raise
`jina.excepts.RuntimeFailToStart`, or raise `TimeoutError`. -/
inductive WaitOutcome
  | success
  | runtimeFailToStart
  | timeoutError
deriving DecidableEq

/-- Result of `wait_start_success`: its outcome, and whether it invoked
`self.close()` on the way (which it does only on the timeout path). -/
structure WaitResult where
  outcome : WaitOutcome
  closeCalled : Bool
deriving DecidableEq

/-- Shallow embedding of `BasePea.wait_start_success`.  `timeoutReadyMs` is
`self.args.timeout_ready`; `gateOracle` is whether the bounded wait on
`self.ready_or_shutdown.event` unblocked within a positive timeout;
`readyIsSet` and `shutdownIsSet` are the flag values observed when the gate
unblocks.  Note that the source consults only `self.is_shutdown.is_set()`
after the gate unblocks — `readyIsSet` is part of the observed state but is
never read, exactly as in the source. -/
def wait_start_success (timeoutReadyMs : Int)
    (gateOracle readyIsSet shutdownIsSet : Bool) : WaitResult :=
  if gateUnblocked timeoutReadyMs gateOracle then
    if shutdownIsSet then
      { outcome := WaitOutcome.runtimeFailToStart, closeCalled := false }
    else
      { outcome := WaitOutcome.success, closeCalled := false }
  else
    { outcome := WaitOutcome.timeoutError, closeCalled := true }

/-- Observable actions of `BasePea.close`, in program order: the initial
grace join `self.join(0.1)`; the control signals `runtime_cls.deactivate`
and `runtime_cls.cancel` (to the local or the remote control address); the
drain sleep between them; the unconditional `self.is_shutdown.wait()`; the
error log of a caught signaling failure; the full `self.join()`; the
`self.terminate()` of the non-ready branch; and the closing log calls. -/
inductive CloseAction
  | joinGrace
  | deactivate
  | sleepDrain
  | cancelLocal
  | cancelRemote
  | waitShutdown
  | logError
  | joinFull
  | terminate
  | logStop
  | logClose
deriving DecidableEq

/-- The body of the `try` block inside `close` that signals the runtime:
`deactivate` plus a drain sleep when this Pea is a dealer, then `cancel` to
the local control address when not remote-controlled and to the remote one
otherwise, then an unconditional wait for `is_shutdown`. -/
def closeSignalBlock (dealer isRemoteControlled : Bool) : List CloseAction :=
  (if dealer then [CloseAction.deactivate, CloseAction.sleepDrain] else []) ++
  [if isRemoteControlled then CloseAction.cancelRemote else CloseAction.cancelLocal] ++
  [CloseAction.waitShutdown]

/-- Shallow embedding of `BasePea.close`.  `readyIsSet` and `shutdownIsSet`
are the flag values at the `if self.is_ready.is_set() and not
self.is_shutdown.is_set()` test; `dealer` is `self._dealer`;
`isRemoteControlled` is `self._is_remote_controlled`; `daemon` is
`self.args.daemon`.  `signalFailsAt` is `none` when the signaling block runs
to completion, and `some n` when its `n`-th action raises — the exception is
caught and logged, and the non-daemon full join still happens afterwards. -/
def close (readyIsSet shutdownIsSet dealer isRemoteControlled daemon : Bool)
    (signalFailsAt : Option Nat) : List CloseAction :=
  [CloseAction.joinGrace] ++
  (if readyIsSet && !shutdownIsSet then
    (match signalFailsAt with
     | none => closeSignalBlock dealer isRemoteControlled
     | some n =>
       (closeSignalBlock dealer isRemoteControlled).take n ++ [CloseAction.logError]) ++
    (if !daemon then [CloseAction.joinFull] else [])
  else [CloseAction.terminate]) ++
  [CloseAction.logStop, CloseAction.logClose]

/-- Character-list core of `startswith`. -/
def swGo : List Char → List Char → Bool
  | [], _ => true
  | _ :: _, [] => false
  | p :: ps, c :: cs => (p == c) && swGo ps cs

/-- Python `str.startswith`: the first argument starts with the second. -/
def startswith (s pre : String) : Bool := swGo pre.data s.data

/-- Shallow embedding of `BasePea._get_runtime_cls` (name selection and the
remote flag; the final lookup of the selected name in the runtime registry
is external to this module).  `default_host` stands for the imported
constant `jina.__default_host__`.  The source mutates
`self.args.runtime_cls` through two successive `if` statements (not
`elif`): first forcing `JinadRuntime` for a non-default host, then replacing
a requested `ZEDRuntime` with `ContainerRuntime` when `self.args.uses`
starts with the container scheme. -/
def _get_runtime_cls (default_host host requested uses : String) : String × Bool :=
  let rc1 := if host ≠ default_host then ("JinadRuntime") else requested
  let is_remote_controlled := if host ≠ default_host then true else false
  let rc2 :=
    if rc1 = ("ZEDRuntime") ∧ startswith uses ("docker://") = true then ("ContainerRuntime")
    else rc1
  (rc2, is_remote_controlled)

/-- The map `self._envs` built in `BasePea.__init__`: always contains
`JINA_POD_NAME` (the Pea name) and `JINA_LOG_ID` (the identity), plus
`JINA_LOG_CONFIG` when `args.quiet`, plus every user-supplied entry of
`args.env` (dict update: a later binding for the same key wins on lookup). -/
def _envs (name identity : String) (quiet : Bool)
    (userEnv : List (String × String)) : List (String × String) :=
  [(("JINA_POD_NAME"), name), (("JINA_LOG_ID"), identity)] ++
  (if quiet then [(("JINA_LOG_CONFIG"), ("QUIET"))] else []) ++ userEnv

/-- Lookup in an environment map with dict-update semantics: the latest
binding of a key wins. -/
def envLookup (envs : List (String × String)) (k : String) : Option String :=
  List.lookup k envs.reverse

/-- Shallow embedding of `BasePea._set_envs` as its effect on the process
environment `environ`.  It does nothing unless `args.env` (here `userEnv`)
is non-empty; with a non-empty `userEnv` it warns and applies nothing under
the THREAD backend, and otherwise updates `environ` with every entry of the
full `envs` map (`self._envs`).  Returns the new environment and whether the
thread warning was logged. -/
def _set_envs (backend : RuntimeBackendType)
    (userEnv envs : List (String × String))
    (environ : String → Option String) : (String → Option String) × Bool :=
  if userEnv ≠ [] then
    if backend = RuntimeBackendType.THREAD then (environ, true)
    else
      ((fun k =>
        match envLookup envs k with
        | some v => some v
        | none => environ k), false)
  else (environ, false)

/-- Shallow embedding of `BasePea._unset_envs` as its effect on the process
environment: when `self._envs` is non-empty (it always is) and the backend
is not THREAD, it unsets every key of `envs`, whether or not `_set_envs`
ever applied it. -/
def _unset_envs (backend : RuntimeBackendType) (envs : List (String × String))
    (environ : String → Option String) : String → Option String :=
  if envs ≠ [] ∧ backend ≠ RuntimeBackendType.THREAD then
    fun k => if (envs.map Prod.fst).contains k then none else environ k
  else environ

/-- Boolean implication, used to bundle conditional trace facts into one
decidable check. -/
def bimp (x y : Bool) : Bool := !x || y

/-- A conjunction of every decidable fact about the traces of `run` that the
claims need, bundled so that the exhaustive enumeration over all oracle
values is performed once. -/
def traceCheck (b : RuntimeBackendType) (env : Bool) (c s r : Option ExcKind)
    (es : List Event) : Bool :=
  noReadySetAfterShutdown es &&
  shutdownMono (flagTrace es) &&
  finallyEvents.isSuffixOf es &&
  (es.count Event.shutdownSet == 1) &&
  (es.count Event.readyClear == 1) &&
  (es.count Event.unsetEnvsCall == 1) &&
  bimp ((c == none) && (s == none) && !(r == some ExcKind.systemExit))
    (occursBefore Event.teardownCall Event.shutdownSet es) &&
  bimp ((c == none) && s.any isException)
    (es.contains Event.logError && !(es.contains Event.readySet) &&
     !(es.contains Event.teardownCall) && es.contains Event.shutdownSet) &&
  bimp ((b == RuntimeBackendType.PROCESS) && env && (c == none))
    (occursBefore Event.setEnvs Event.setupCall es &&
     bimp (es.contains Event.runForeverCall)
       (occursBefore Event.runForeverCall Event.unsetEnvsCall es) &&
     bimp (es.contains Event.teardownCall)
       (occursBefore Event.teardownCall Event.unsetEnvsCall es)) &&
  bimp ((b == RuntimeBackendType.THREAD) && env && (c == none))
    (es.contains Event.warnThreadEnv && !(es.contains Event.setEnvs))

theorem bimp_true {x y : Bool} (h : bimp x y = true) (hx : x = true) : y = true := by
  cases x <;> cases y <;> simp_all [bimp]

theorem traceCheckAll : ∀ (b : RuntimeBackendType) (qe env : Bool)
    (c s r t : Option ExcKind),
    traceCheck b env c s r ((run b qe env c s r t).fst) = true := by
  intro b qe env c s r t
  cases b <;> cases qe <;> cases env <;>
    rcases c with _ | ck <;> rcases s with _ | sk <;>
    rcases r with _ | rk <;> rcases t with _ | tk <;>
    first
    | rfl
    | (cases tk <;> rfl)
    | (cases rk <;> first
        | rfl
        | (cases tk <;> rfl))
    | (cases sk <;> rfl)
    | (cases ck <;> rfl)

/-- Claim C1, counterexample: the claim says `teardown()` is always
attempted before the shutdown signal, in particular when `setup()` fails.
In the source, a `setup()` failure is caught by the outer `except` clause
and the `else` suite — which contains the only `runtime.teardown()` call —
is skipped, so on the concrete execution where `setup()` raises an ordinary
exception the trace signals `is_shutdown` without any `teardown()` call. -/
theorem C1_counterexample :
    (run RuntimeBackendType.PROCESS false false none (some ExcKind.otherError)
      none none).fst.contains Event.shutdownSet = true ∧
    (run RuntimeBackendType.PROCESS false false none (some ExcKind.otherError)
      none none).fst.contains Event.teardownCall = false := by decide

/-- Claim C1, amended: `teardown()` is attempted before the shutdown signal
exactly on the executions that reach it — construction and `setup()`
succeeded and `run_forever()` did not raise a non-`Exception`
`BaseException` such as `SystemExit`; when `setup()` fails with an
`Exception`, the body logs the failure, skips the ready signal, skips
`teardown()`, and still signals `is_shutdown`. -/
theorem C1_amended_theorem (b : RuntimeBackendType) (qe env : Bool)
    (c s r t : Option ExcKind) :
    (c = none → s = none → r ≠ some ExcKind.systemExit →
      occursBefore Event.teardownCall Event.shutdownSet
        (run b qe env c s r t).fst = true) ∧
    (∀ k, c = none → s = some k → isException k = true →
      (run b qe env c s r t).fst.contains Event.logError = true ∧
      (run b qe env c s r t).fst.contains Event.readySet = false ∧
      (run b qe env c s r t).fst.contains Event.teardownCall = false ∧
      (run b qe env c s r t).fst.contains Event.shutdownSet = true) := by
  have h := traceCheckAll b qe env c s r t
  simp only [traceCheck, Bool.and_eq_true] at h
  obtain ⟨⟨⟨⟨⟨⟨⟨⟨⟨h1, h2⟩, h3⟩, h4⟩, h5⟩, h6⟩, h7⟩, h8⟩, h9⟩, h10⟩ := h
  constructor
  · intro hc hs hr
    apply bimp_true h7
    subst hc; subst hs
    cases r with
    | none => decide
    | some k => cases k <;> simp_all
  · intro k hc hs hk
    have h8c := bimp_true h8 (by subst hc; subst hs; simp [Option.any, hk])
    simp only [Bool.and_eq_true, Bool.not_eq_true'] at h8c
    exact ⟨h8c.1.1.1, h8c.1.1.2, h8c.1.2, h8c.2⟩

/-- Claim C1, witness for the amended theorem at concrete inputs: on the
all-successful execution `teardown()` precedes `is_shutdown`, and on a
failing-`setup()` execution `teardown()` is never called. -/
theorem C1_amended_witness :
    occursBefore Event.teardownCall Event.shutdownSet
      (run RuntimeBackendType.PROCESS false false none none none none).fst = true ∧
    (run RuntimeBackendType.PROCESS false false none (some ExcKind.otherError)
      none none).fst.contains Event.teardownCall = false :=
  ⟨(C1_amended_theorem RuntimeBackendType.PROCESS false false none none none none).1
      rfl rfl (by decide),
   ((C1_amended_theorem RuntimeBackendType.PROCESS false false none
      (some ExcKind.otherError) none none).2 ExcKind.otherError rfl rfl rfl).2.2.1⟩

/-- Claim C2, code bug evaluation: the claim (and the docstring of `run`
itself) says nothing raised inside the lifecycle body escapes the execution
context boundary.  But when construction of the runtime raises and
`quiet_error` is false (the default), the outer `except Exception` handler
evaluates `f-string {runtime.setup!r}` with the local `runtime` unbound, so
the handler itself raises `UnboundLocalError`, which no clause catches: it
escapes `run` (the `finally` block still signals `is_shutdown`, clears
`is_ready` and calls `_unset_envs`, as the trace shows). -/
theorem C2_bug_eval :
    run RuntimeBackendType.PROCESS false false (some ExcKind.otherError)
      none none none =
      ([Event.shutdownSet, Event.readyClear, Event.unsetEnvsCall],
        some PyExc.unboundLocalError) := by decide

/-- Claim C3, counterexample: the claim says that when the gate unblocks with
`is_ready` true the wait returns success.  The source consults only
`is_shutdown` after the gate unblocks, so at the observable state where both
flags are true — which the `finally` block of `run` produces between
`is_shutdown.set()` and `is_ready.clear()` — it raises `RuntimeFailToStart`
instead of returning success. -/
theorem C3_counterexample :
    wait_start_success 1000 true true true =
      { outcome := WaitOutcome.runtimeFailToStart, closeCalled := false } ∧
    WaitOutcome.runtimeFailToStart ≠ WaitOutcome.success := by decide

/-- Claim C3, amended: `wait_start_success` has exactly three outcomes,
discriminated only by `is_shutdown`: if the gate unblocks with `is_shutdown`
true it raises `RuntimeFailToStart` regardless of `is_ready`; if the gate
unblocks with `is_shutdown` false it returns success; if the gate never
unblocks within a positive ready-timeout it invokes `close()` and raises
`TimeoutError`. -/
theorem C3_amended_theorem (tm : Int) (g r s : Bool) :
    (gateUnblocked tm g = true → s = true →
      wait_start_success tm g r s =
        { outcome := WaitOutcome.runtimeFailToStart, closeCalled := false }) ∧
    (gateUnblocked tm g = true → s = false →
      wait_start_success tm g r s =
        { outcome := WaitOutcome.success, closeCalled := false }) ∧
    (gateUnblocked tm g = false →
      wait_start_success tm g r s =
        { outcome := WaitOutcome.timeoutError, closeCalled := true }) := by
  refine ⟨fun h1 h2 => ?_, fun h1 h2 => ?_, fun h1 => ?_⟩
  · simp [wait_start_success, h1, h2]
  · simp [wait_start_success, h1, h2]
  · simp [wait_start_success, h1]

/-- Claim C3, witness for the amended theorem at concrete inputs covering
all three outcomes. -/
theorem C3_amended_witness :
    wait_start_success 1000 true false true =
      { outcome := WaitOutcome.runtimeFailToStart, closeCalled := false } ∧
    wait_start_success 1000 true true false =
      { outcome := WaitOutcome.success, closeCalled := false } ∧
    wait_start_success 1000 false false false =
      { outcome := WaitOutcome.timeoutError, closeCalled := true } :=
  ⟨(C3_amended_theorem 1000 true false true).1 (by decide) rfl,
   (C3_amended_theorem 1000 true true false).2.1 (by decide) rfl,
   (C3_amended_theorem 1000 false false false).2.2 (by decide)⟩

/-- Claim C4, counterexample: the claim says `is_ready` is never observably
true at any point at which `is_shutdown` is observably true.  On the fully
successful execution of `run`, the `finally` block sets `is_shutdown` before
clearing `is_ready`, so the flag-state sequence of the body's own
transitions contains a state with both flags true. -/
theorem C4_counterexample :
    (flagTrace (run RuntimeBackendType.PROCESS false false
        none none none none).fst).contains
      { ready := true, shutdown := true } = true := by decide

/-- Claim C4, amended: over every execution of the lifecycle body,
`is_ready` is never set after `is_shutdown` is set, and once `is_shutdown`
is true it is never cleared; however, between `is_shutdown.set()` and the
immediately following `is_ready.clear()` in the `finally` block both flags
are briefly observably true, so the claim's final conjunct fails. -/
theorem C4_amended_theorem (b : RuntimeBackendType) (qe env : Bool)
    (c s r t : Option ExcKind) :
    noReadySetAfterShutdown (run b qe env c s r t).fst = true ∧
    shutdownMono (flagTrace (run b qe env c s r t).fst) = true := by
  have h := traceCheckAll b qe env c s r t
  simp only [traceCheck, Bool.and_eq_true] at h
  obtain ⟨⟨⟨⟨⟨⟨⟨⟨⟨h1, h2⟩, h3⟩, h4⟩, h5⟩, h6⟩, h7⟩, h8⟩, h9⟩, h10⟩ := h
  exact ⟨h1, h2⟩

/-- Claim C5: runtime selection.  If the target host differs from the
default host, `JinadRuntime` is selected with `is_remote_controlled` true,
irrespective of the requested name; if the host is the default, the
requested name is `ZEDRuntime` and the resource descriptor starts with
`docker://`, `ContainerRuntime` is selected with the flag false; otherwise
the requested name is kept unchanged with the flag false. -/
theorem C5_theorem (default_host host requested uses : String) :
    (host ≠ default_host →
      _get_runtime_cls default_host host requested uses = (("JinadRuntime"), true)) ∧
    (host = default_host → requested = ("ZEDRuntime") →
      startswith uses ("docker://") = true →
      _get_runtime_cls default_host host requested uses = (("ContainerRuntime"), false)) ∧
    (host = default_host →
      ¬(requested = ("ZEDRuntime") ∧ startswith uses ("docker://") = true) →
      _get_runtime_cls default_host host requested uses = (requested, false)) := by
  refine ⟨fun h => ?_, fun h hz hd => ?_, fun h hn => ?_⟩
  · simp [_get_runtime_cls, h]
  · simp [_get_runtime_cls, h, hz, hd]
  · simp [_get_runtime_cls, h, hn]

/-- Claim C5, witness at concrete configurations exercising all three
branches of the selection. -/
theorem C5_witness :
    _get_runtime_cls ("0.0.0.0") ("1.2.3.4") ("FooRuntime") ("executor") =
      (("JinadRuntime"), true) ∧
    _get_runtime_cls ("0.0.0.0") ("0.0.0.0") ("ZEDRuntime") ("docker://img") =
      (("ContainerRuntime"), false) ∧
    _get_runtime_cls ("0.0.0.0") ("0.0.0.0") ("FooRuntime") ("executor") =
      (("FooRuntime"), false) :=
  ⟨(C5_theorem ("0.0.0.0") ("1.2.3.4") ("FooRuntime") ("executor")).1 (by decide),
   (C5_theorem ("0.0.0.0") ("0.0.0.0") ("ZEDRuntime") ("docker://img")).2.1 rfl rfl
     (by decide),
   (C5_theorem ("0.0.0.0") ("0.0.0.0") ("FooRuntime") ("executor")).2.2 rfl
     (by intro hcontra; exact absurd hcontra.1 (by decide))⟩

/-- Claim C6: on every exit path of the lifecycle body — normal completion,
construction failure, setup failure, run_forever failure, or any escaping
exception — the trace ends with exactly `is_shutdown.set()`,
`is_ready.clear()`, `_unset_envs()`, in that order, and each of the three
finalization steps is performed exactly once. -/
theorem C6_theorem (b : RuntimeBackendType) (qe env : Bool)
    (c s r t : Option ExcKind) :
    finallyEvents.isSuffixOf (run b qe env c s r t).fst = true ∧
    (run b qe env c s r t).fst.count Event.shutdownSet = 1 ∧
    (run b qe env c s r t).fst.count Event.readyClear = 1 ∧
    (run b qe env c s r t).fst.count Event.unsetEnvsCall = 1 := by
  have h := traceCheckAll b qe env c s r t
  simp only [traceCheck, Bool.and_eq_true] at h
  obtain ⟨⟨⟨⟨⟨⟨⟨⟨⟨h1, h2⟩, h3⟩, h4⟩, h5⟩, h6⟩, h7⟩, h8⟩, h9⟩, h10⟩ := h
  exact ⟨h3, beq_iff_eq.mp h4, beq_iff_eq.mp h5, beq_iff_eq.mp h6⟩

/-- Claim C7: `close()` is idempotent.  After a first `close()` has
completed, `is_shutdown` is set, so a second invocation takes the
non-signaling branch: it performs only the bounded grace join, a
`terminate()` of the already-finished worker and the closing log calls — in
particular it sends no `deactivate` and no `cancel` control signal and never
blocks on `is_shutdown.wait()` or a full join. -/
theorem C7_theorem (ready dealer remote daemon : Bool) (failAt : Option Nat) :
    close ready true dealer remote daemon failAt =
      [CloseAction.joinGrace, CloseAction.terminate,
       CloseAction.logStop, CloseAction.logClose] := by
  cases ready <;> rfl

/-- Claim C8: with a non-positive configured ready-timeout, the gate wait of
`wait_start_success` is called with `None` and blocks until a flag is set,
so the timeout branch — the only one raising `TimeoutError` — is
unreachable. -/
theorem C8_theorem (tm : Int) (g r s : Bool) (h : tm ≤ 0) :
    (wait_start_success tm g r s).outcome ≠ WaitOutcome.timeoutError := by
  cases s <;> simp [wait_start_success, gateUnblocked, h]

/-- Claim C8, witness at a concrete non-positive timeout. -/
theorem C8_witness :
    (-5 : Int) ≤ 0 ∧
    (wait_start_success (-5) false false false).outcome ≠ WaitOutcome.timeoutError :=
  ⟨by decide, C8_theorem (-5) false false false (by decide)⟩

/-- Claim C9: with user environment overrides supplied and construction
succeeding, under the PROCESS backend the environment is applied
(`os.environ.update`) strictly before `setup()` and the reverting
`_unset_envs()` call comes strictly after `run_forever()` and after
`teardown()` whenever those run; under the THREAD backend the variables are
never applied and a warning is logged instead (and `_set_envs` leaves the
process environment untouched while reporting the warning). -/
theorem C9_theorem (qe : Bool) (c s r t : Option ExcKind)
    (userEnv envs : List (String × String)) (environ : String → Option String)
    (hc : c = none) (hu : userEnv ≠ []) :
    (occursBefore Event.setEnvs Event.setupCall
        (run RuntimeBackendType.PROCESS qe true c s r t).fst = true ∧
      ((run RuntimeBackendType.PROCESS qe true c s r t).fst.contains
          Event.runForeverCall = true →
        occursBefore Event.runForeverCall Event.unsetEnvsCall
          (run RuntimeBackendType.PROCESS qe true c s r t).fst = true) ∧
      ((run RuntimeBackendType.PROCESS qe true c s r t).fst.contains
          Event.teardownCall = true →
        occursBefore Event.teardownCall Event.unsetEnvsCall
          (run RuntimeBackendType.PROCESS qe true c s r t).fst = true)) ∧
    ((run RuntimeBackendType.THREAD qe true c s r t).fst.contains
        Event.warnThreadEnv = true ∧
      (run RuntimeBackendType.THREAD qe true c s r t).fst.contains
        Event.setEnvs = false) ∧
    _set_envs RuntimeBackendType.THREAD userEnv envs environ = (environ, true) := by
  have hp := traceCheckAll RuntimeBackendType.PROCESS qe true c s r t
  have ht := traceCheckAll RuntimeBackendType.THREAD qe true c s r t
  simp only [traceCheck, Bool.and_eq_true] at hp ht
  obtain ⟨⟨⟨⟨⟨⟨⟨⟨⟨_, _⟩, _⟩, _⟩, _⟩, _⟩, _⟩, _⟩, hp9⟩, _⟩ := hp
  obtain ⟨⟨⟨⟨⟨⟨⟨⟨⟨_, _⟩, _⟩, _⟩, _⟩, _⟩, _⟩, _⟩, _⟩, ht10⟩ := ht
  have hp9c := bimp_true hp9 (by subst hc; simp)
  have ht10c := bimp_true ht10 (by subst hc; simp)
  simp only [Bool.and_eq_true, Bool.not_eq_true'] at hp9c ht10c
  refine ⟨⟨hp9c.1.1, fun hrf => bimp_true hp9c.1.2 hrf,
    fun htd => bimp_true hp9c.2 htd⟩, ⟨ht10c.1, ht10c.2⟩, ?_⟩
  simp [_set_envs, hu]

/-- Claim C9, witness at a concrete configuration with one user override. -/
theorem C9_witness :
    occursBefore Event.setEnvs Event.setupCall
      (run RuntimeBackendType.PROCESS false true none none none none).fst = true ∧
    (run RuntimeBackendType.THREAD false true none none none none).fst.contains
      Event.setEnvs = false :=
  ⟨((C9_theorem false none none none none [(("A"), ("1"))] []
      (fun _ => none) rfl (by decide)).1).1,
   ((C9_theorem false none none none none [(("A"), ("1"))] []
      (fun _ => none) rfl (by decide)).2).1.2⟩

/-- Claim C10: environment reversal is not the inverse of injection.  With
no user overrides (`args.env` empty) under the PROCESS backend, `_set_envs`
leaves the process environment untouched (and warns nothing), while
`_unset_envs` still unsets every key of the always-populated `self._envs`
map — in particular `JINA_POD_NAME` and `JINA_LOG_ID`. -/
theorem C10_theorem (name identity : String) (quiet : Bool)
    (environ : String → Option String) :
    _set_envs RuntimeBackendType.PROCESS [] (_envs name identity quiet []) environ =
      (environ, false) ∧
    _unset_envs RuntimeBackendType.PROCESS (_envs name identity quiet []) environ
      ("JINA_POD_NAME") = none ∧
    _unset_envs RuntimeBackendType.PROCESS (_envs name identity quiet []) environ
      ("JINA_LOG_ID") = none ∧
    (∀ k, k ∈ (_envs name identity quiet []).map Prod.fst →
      _unset_envs RuntimeBackendType.PROCESS (_envs name identity quiet [])
        environ k = none) := by
  refine ⟨by simp [_set_envs], ?_, ?_, ?_⟩
  · cases quiet <;> rfl
  · cases quiet <;> rfl
  · intro k hk
    cases quiet
    · simp [_envs] at hk
      rcases hk with rfl | rfl <;> rfl
    · simp [_envs] at hk
      rcases hk with rfl | rfl | rfl <;> rfl

/-- Claim C10, witness: the identity key `JINA_POD_NAME` is unset even
though nothing was ever applied. -/
theorem C10_witness :
    _unset_envs RuntimeBackendType.PROCESS (_envs ("p") ("i") false [])
      (fun _ => some ("x")) ("JINA_POD_NAME") = none :=
  (C10_theorem ("p") ("i") false (fun _ => some ("x"))).2.2.2 ("JINA_POD_NAME")
    (by simp [_envs])

end Jina
